import Mathlib

/-!
Verification development for the Golden Protocol backtest engines.

The repository contains two variants of the same setup state machine:
`backtest_engine.py` (namespace `Engine` below) and the inlined engine of
`es_rr_optimizer.py` (namespace `Opt` below).  Prices are modelled as
rationals, timestamps as naturals, pandas rows as a `Candle` structure with
optional indicator fields, and the per-asset dict of active trades as an
insertion-ordered association list.
-/

inductive TradeState where
  | SCANNING | PPI | SWEEP | PENDING | FILLED | WIN | LOSS | EXPIRED
deriving DecidableEq

inductive TradeDirection where
  | LONG | SHORT
deriving DecidableEq

inductive EntryMode where
  | FIB | SWEEP | BREAKUP
deriving DecidableEq

inductive Asset where
  | ES | NQ
deriving DecidableEq

inductive Outcome where
  | PPI_EXPIRED | ENTRY_EXPIRED | WIN | LOSS | EXPIRED
deriving DecidableEq

/-- One OHLC bar.  Indicator columns of the enriched DataFrame are optional
fields (`none` models an absent column); EMA columns `ema_{p}` are an
association list keyed by the period. -/
structure Candle where
  open_ : ℚ
  high : ℚ
  low : ℚ
  close : ℚ
  atr_14 : Option ℚ := none
  wick_frac_up : Option ℚ := none
  wick_frac_down : Option ℚ := none
  rvol : Option ℚ := none
  bb_expansion : Option Bool := none
  macro_trend : Option Int := none
  ema : List (Nat × ℚ) := []
deriving DecidableEq

/-- Lookup of the `ema_{p}` column on a candle. -/
def emaLookup (c : Candle) (p : Nat) : Option ℚ :=
  (c.ema.find? (fun kv => decide (kv.1 = p))).map (fun kv => kv.2)

/-- Embedding of `get_candle_direction`: +1 green, -1 red, 0 doji. -/
def get_candle_direction (c : Candle) : Int :=
  if c.close > c.open_ then 1 else if c.close < c.open_ then -1 else 0

/-- Python's `abs` on rationals, written with an `if` so that concrete
evaluation by `simp`/`norm_num` goes through. -/
def pyabs (q : ℚ) : ℚ := if q < 0 then -q else q

theorem pyabs_eq_abs (q : ℚ) : pyabs q = |q| := by
  unfold pyabs
  rcases lt_or_le q 0 with h | h
  · rw [if_pos h, abs_of_neg h]
  · rw [if_neg (not_lt.mpr h), abs_of_nonneg h]

/-- Python's binary `max` on rationals, written with an `if`. -/
def pymax (a b : ℚ) : ℚ := if a ≤ b then b else a

theorem pymax_eq_max (a b : ℚ) : pymax a b = max a b := by
  unfold pymax
  rcases le_total a b with h | h
  · rw [if_pos h, max_eq_right h]
  · rcases lt_or_eq_of_le h with h2 | h2
    · rw [if_neg (not_le.mpr h2), max_eq_left h]
    · rw [h2]; simp

theorem asset_nq_ne_es : ¬(Asset.NQ = Asset.ES) := by simp

theorem asset_es_ne_nq : ¬(Asset.ES = Asset.NQ) := by simp

/-- Timestamp-keyed bar lookup, modelling `df.loc[ts]` on a unique index. -/
def lookupBar (l : List (Nat × Candle)) (ts : Nat) : Option Candle :=
  (l.find? (fun p => decide (p.1 = ts))).map (fun p => p.2)

namespace Engine

/-- Embedding of `BacktestConfig` from `backtest_engine.py` (note: it has no
`use_trailing_fib` field). -/
structure BacktestConfig where
  timeframe_minutes : Nat := 2
  ppi_expiry_candles : Nat := 12
  entry_expiry_candles : Nat := 7
  fib_entry : ℚ := 1/2
  fib_stop : ℚ := 1
  fib_target : ℚ := 0
  es_point_value : ℚ := 50
  nq_point_value : ℚ := 20
  use_trend_filter : Bool := false
  trend_ema_period : Nat := 50
  min_atr : ℚ := 0
  max_atr : ℚ := 0
  min_wick_frac : ℚ := 0
  min_rvol : ℚ := 0
  breakeven_trigger_r : ℚ := 0
  use_macro_filter : Bool := false
  require_bb_expansion : Bool := false
  entry_mode : EntryMode := EntryMode.FIB
deriving DecidableEq

/-- Embedding of the `TradeSetup` dataclass of `backtest_engine.py`. -/
structure TradeSetup where
  ppi_time : Nat
  ppi_es_dir : Int := 0
  ppi_nq_dir : Int := 0
  ppi_high : ℚ
  ppi_low : ℚ
  asset : Asset
  sweep_time : Option Nat := none
  sweep_direction : Option TradeDirection := none
  sweep_extreme : Option ℚ := none
  bos_time : Option Nat := none
  bos_extreme : Option ℚ := none
  fib_0 : Option ℚ := none
  fib_1 : Option ℚ := none
  entry_price : Option ℚ := none
  stop_price : Option ℚ := none
  target_price : Option ℚ := none
  fill_time : Option Nat := none
  state : TradeState := TradeState.PPI
  candles_since_ppi : Nat := 0
  candles_since_bos : Nat := 0
  outcome : Option Outcome := none
  outcome_time : Option Nat := none
  pnl : ℚ := 0
  breakeven_active : Bool := false
deriving DecidableEq

/-- Embedding of `calculate_fib_levels` from `backtest_engine.py`; returns
`(entry, stop, target)`. -/
def calculate_fib_levels (fib_0 fib_1 : ℚ) (dir : TradeDirection)
    (config : BacktestConfig) : ℚ × ℚ × ℚ :=
  let fib_range := pyabs (fib_1 - fib_0)
  match dir with
  | TradeDirection.SHORT =>
    match config.entry_mode with
    | EntryMode.SWEEP => (fib_1, fib_1 + fib_range * (272/1000), fib_0)
    | EntryMode.BREAKUP => (fib_0 + config.fib_entry * fib_range, fib_1, fib_0)
    | EntryMode.FIB => (fib_0 + config.fib_entry * fib_range, fib_1, fib_0)
  | TradeDirection.LONG =>
    match config.entry_mode with
    | EntryMode.SWEEP => (fib_1, fib_1 - fib_range * (272/1000), fib_0)
    | _ => (fib_0 - config.fib_entry * fib_range, fib_1, fib_0)

/-- The `max_atr` guard at the sweep transition: missing `atr_14` reads as 0,
so the bound is skipped. -/
abbrev maxAtrPass (config : BacktestConfig) (c : Candle) : Prop :=
  ¬(config.max_atr > 0 ∧ c.atr_14.getD 0 > config.max_atr)

/-- The upper-wick filter: missing `wick_ratio_up` reads as 0 (fail closed). -/
abbrev wickUpPass (config : BacktestConfig) (c : Candle) : Prop :=
  ¬(config.min_wick_frac > 0 ∧ c.wick_frac_up.getD 0 < config.min_wick_frac)

/-- The lower-wick filter: missing `wick_ratio_down` reads as 0 (fail closed). -/
abbrev wickDownPass (config : BacktestConfig) (c : Candle) : Prop :=
  ¬(config.min_wick_frac > 0 ∧ c.wick_frac_down.getD 0 < config.min_wick_frac)

/-- The relative-volume filter: missing `rvol` reads as 0 (fail closed). -/
abbrev rvolPass (config : BacktestConfig) (c : Candle) : Prop :=
  ¬(config.min_rvol > 0 ∧ c.rvol.getD 0 < config.min_rvol)

/-- The Bollinger-expansion filter: missing `bb_expansion` reads as false. -/
abbrev bbPass (config : BacktestConfig) (c : Candle) : Prop :=
  ¬(config.require_bb_expansion = true ∧ c.bb_expansion.getD false = false)

/-- Macro alignment for a bearish sweep: missing `macro_trend` reads as 0. -/
abbrev macroShortPass (config : BacktestConfig) (c : Candle) : Prop :=
  ¬(config.use_macro_filter = true ∧ c.macro_trend.getD 0 ≠ -1)

/-- Macro alignment for a bullish sweep: missing `macro_trend` reads as 0. -/
abbrev macroLongPass (config : BacktestConfig) (c : Candle) : Prop :=
  ¬(config.use_macro_filter = true ∧ c.macro_trend.getD 0 ≠ 1)

/-- Embedding of `_process_ppi_phase`: expiry check, then bearish sweep, then bullish
sweep, each sweep guarded by the filters above. -/
def processPpiPhase (config : BacktestConfig) (trade : TradeSetup) (ts : Nat)
    (candle : Candle) : TradeSetup :=
  let t := { trade with candles_since_ppi := trade.candles_since_ppi + 1 }
  if t.candles_since_ppi > config.ppi_expiry_candles then
    { t with state := TradeState.EXPIRED, outcome := some Outcome.PPI_EXPIRED }
  else if candle.high > t.ppi_high ∧ candle.close ≤ t.ppi_high then
    if maxAtrPass config candle ∧ wickUpPass config candle ∧
        rvolPass config candle ∧ bbPass config candle ∧
        macroShortPass config candle then
      { t with sweep_time := some ts,
               sweep_direction := some TradeDirection.SHORT,
               sweep_extreme := some candle.high,
               fib_1 := some candle.high,
               state := TradeState.SWEEP }
    else t
  else if candle.low < t.ppi_low ∧ candle.close ≥ t.ppi_low then
    if maxAtrPass config candle ∧ wickDownPass config candle ∧
        rvolPass config candle ∧ bbPass config candle ∧
        macroLongPass config candle then
      { t with sweep_time := some ts,
               sweep_direction := some TradeDirection.LONG,
               sweep_extreme := some candle.low,
               fib_1 := some candle.low,
               state := TradeState.SWEEP }
    else t
  else t

/-- Embedding of `_process_sweep_phase`: BOS confirmation and initial level computation. -/
def processSweepPhase (config : BacktestConfig) (trade : TradeSetup) (ts : Nat)
    (candle : Candle) : TradeSetup :=
  if trade.sweep_direction = some TradeDirection.SHORT then
    if candle.close < trade.ppi_low then
      let lv := calculate_fib_levels candle.low (trade.fib_1.getD 0)
        TradeDirection.SHORT config
      { trade with bos_time := some ts, bos_extreme := some candle.low,
                   fib_0 := some candle.low,
                   entry_price := some lv.1, stop_price := some lv.2.1,
                   target_price := some lv.2.2, state := TradeState.PENDING }
    else trade
  else
    if candle.close > trade.ppi_high then
      let lv := calculate_fib_levels candle.high (trade.fib_1.getD 0)
        (trade.sweep_direction.getD TradeDirection.LONG) config
      { trade with bos_time := some ts, bos_extreme := some candle.high,
                   fib_0 := some candle.high,
                   entry_price := some lv.1, stop_price := some lv.2.1,
                   target_price := some lv.2.2, state := TradeState.PENDING }
    else trade

/-- The trailing-fib block at the top of `_process_pending_phase`: `fib_0`
trails the new impulse extreme and the levels are recomputed.  The main
engine applies this unconditionally (its configuration has no
`use_trailing_fib` toggle). -/
def trailStep (config : BacktestConfig) (t : TradeSetup) (candle : Candle) :
    TradeSetup :=
  if t.sweep_direction = some TradeDirection.SHORT then
    if candle.low < t.fib_0.getD 0 then
      let lv := calculate_fib_levels candle.low (t.fib_1.getD 0)
        TradeDirection.SHORT config
      { t with fib_0 := some candle.low, entry_price := some lv.1,
               stop_price := some lv.2.1, target_price := some lv.2.2 }
    else t
  else
    if candle.high > t.fib_0.getD 0 then
      let lv := calculate_fib_levels candle.high (t.fib_1.getD 0)
        (t.sweep_direction.getD TradeDirection.LONG) config
      { t with fib_0 := some candle.high, entry_price := some lv.1,
               stop_price := some lv.2.1, target_price := some lv.2.2 }
    else t

/-- The fill / expiry tail of `_process_pending_phase`: a touch of the entry
level fills, otherwise `candles_since_bos >= entry_expiry_candles` expires. -/
def fillOrExpire (config : BacktestConfig) (t : TradeSetup) (ts : Nat)
    (candle : Candle) : TradeSetup :=
  if t.sweep_direction = some TradeDirection.SHORT then
    if candle.high ≥ t.entry_price.getD 0 then
      { t with fill_time := some ts, state := TradeState.FILLED }
    else if t.candles_since_bos ≥ config.entry_expiry_candles then
      { t with state := TradeState.EXPIRED,
               outcome := some Outcome.ENTRY_EXPIRED }
    else t
  else
    if candle.low ≤ t.entry_price.getD 0 then
      { t with fill_time := some ts, state := TradeState.FILLED }
    else if t.candles_since_bos ≥ config.entry_expiry_candles then
      { t with state := TradeState.EXPIRED,
               outcome := some Outcome.ENTRY_EXPIRED }
    else t

/-- Embedding of `_process_pending_phase`: increment the BOS counter, trail, then check
fill or expiry. -/
def processPendingPhase (config : BacktestConfig) (trade : TradeSetup)
    (ts : Nat) (candle : Candle) : TradeSetup :=
  let t1 := { trade with candles_since_bos := trade.candles_since_bos + 1 }
  fillOrExpire config (trailStep config t1 candle) ts candle

/-- The breakeven block at the top of `_process_filled_phase`: once price
moves `breakeven_trigger_r` R-multiples in favor, the stop is overwritten
with the entry price. -/
def beStep (config : BacktestConfig) (t : TradeSetup) (candle : Candle) :
    TradeSetup :=
  if config.breakeven_trigger_r > 0 ∧ t.breakeven_active = false then
    let risk := pyabs (t.entry_price.getD 0 - t.stop_price.getD 0)
    if t.sweep_direction = some TradeDirection.SHORT then
      if candle.low ≤ t.entry_price.getD 0 -
          risk * config.breakeven_trigger_r then
        { t with stop_price := t.entry_price, breakeven_active := true }
      else t
    else
      if candle.high ≥ t.entry_price.getD 0 +
          risk * config.breakeven_trigger_r then
        { t with stop_price := t.entry_price, breakeven_active := true }
      else t
  else t

/-- The outcome resolution tail of `_process_filled_phase`: the stop is
checked before the target. -/
def resolveStep (config : BacktestConfig) (t : TradeSetup) (ts : Nat)
    (candle : Candle) : TradeSetup :=
  let point_value := if t.asset = Asset.ES then config.es_point_value
    else config.nq_point_value
  if t.sweep_direction = some TradeDirection.SHORT then
    if candle.high ≥ t.stop_price.getD 0 then
      { t with state := TradeState.LOSS, outcome := some Outcome.LOSS,
               outcome_time := some ts,
               pnl := (t.entry_price.getD 0 - t.stop_price.getD 0) * point_value }
    else if candle.low ≤ t.target_price.getD 0 then
      { t with state := TradeState.WIN, outcome := some Outcome.WIN,
               outcome_time := some ts,
               pnl := (t.entry_price.getD 0 - t.target_price.getD 0) * point_value }
    else t
  else
    if candle.low ≤ t.stop_price.getD 0 then
      { t with state := TradeState.LOSS, outcome := some Outcome.LOSS,
               outcome_time := some ts,
               pnl := (t.stop_price.getD 0 - t.entry_price.getD 0) * point_value }
    else if candle.high ≥ t.target_price.getD 0 then
      { t with state := TradeState.WIN, outcome := some Outcome.WIN,
               outcome_time := some ts,
               pnl := (t.target_price.getD 0 - t.entry_price.getD 0) * point_value }
    else t

/-- Embedding of `_process_filled_phase`: breakeven adjustment, then resolution. -/
def processFilledPhase (config : BacktestConfig) (trade : TradeSetup)
    (ts : Nat) (candle : Candle) : TradeSetup :=
  resolveStep config (beStep config trade candle) ts candle

/-- Phase dispatch of `_process_active_trades` for a single setup. -/
def stepTrade (config : BacktestConfig) (ts : Nat) (candle : Candle)
    (trade : TradeSetup) : TradeSetup :=
  match trade.state with
  | TradeState.PPI => processPpiPhase config trade ts candle
  | TradeState.SWEEP => processSweepPhase config trade ts candle
  | TradeState.PENDING => processPendingPhase config trade ts candle
  | TradeState.FILLED => processFilledPhase config trade ts candle
  | _ => trade

/-- Terminal states move a setup out of the active dict. -/
def isTerminal (s : TradeState) : Bool :=
  match s with
  | TradeState.WIN | TradeState.LOSS | TradeState.EXPIRED => true
  | _ => false

/-- Embedding of `_process_active_trades`: advance every active setup in insertion order;
returns the completed setups (in completion order) and the surviving actives. -/
def processList (config : BacktestConfig) (ts : Nat) (es nq : Candle) :
    List (Asset × TradeSetup) → List TradeSetup × List (Asset × TradeSetup)
  | [] => ([], [])
  | (a, t) :: rest =>
    let candle := if a = Asset.ES then es else nq
    let t2 := stepTrade config ts candle t
    let acc := processList config ts es nq rest
    if isTerminal t2.state then (t2 :: acc.1, acc.2)
    else (acc.1, (a, t2) :: acc.2)

/-- The trend-filter `continue` condition inside `_check_for_ppi`: true when
the candidate setup is suppressed.  A missing EMA column yields false, so
the setup is created (the filter fails open). -/
def trendBlocks (config : BacktestConfig) (my_dir : Int) (candle : Candle) :
    Bool :=
  if config.use_trend_filter then
    match emaLookup candle config.trend_ema_period with
    | some ema_val =>
      if my_dir = 1 then decide (candle.close > ema_val)
      else if my_dir = -1 then decide (candle.close < ema_val)
      else false
    | none => false
  else false

/-- A fresh PPI-state setup as built in `_check_for_ppi`. -/
def mkPpiSetup (ts : Nat) (es_dir nq_dir : Int) (c : Candle) (a : Asset) :
    TradeSetup :=
  { ppi_time := ts, ppi_es_dir := es_dir, ppi_nq_dir := nq_dir,
    ppi_high := c.high, ppi_low := c.low, asset := a,
    state := TradeState.PPI }

/-- Insert a candidate setup for one asset, skipping assets with an active
trade and candidates suppressed by the trend filter. -/
def addCandidate (config : BacktestConfig) (ts : Nat) (es_dir nq_dir : Int)
    (a : Asset) (candle : Candle) (active : List (Asset × TradeSetup)) :
    List (Asset × TradeSetup) :=
  if (active.find? (fun p => decide (p.1 = a))).isSome then active
  else if trendBlocks config (if a = Asset.ES then es_dir else nq_dir) candle
  then active
  else active ++ [(a, mkPpiSetup ts es_dir nq_dir candle a)]

/-- Embedding of `_check_for_ppi`: divergence detection, the `min_atr` gate (evaluated
here, on the ES candle, and skipped when `atr_14` is absent), and candidate
creation for both assets. -/
def checkForPpi (config : BacktestConfig) (ts : Nat) (es nq : Candle)
    (active : List (Asset × TradeSetup)) : List (Asset × TradeSetup) :=
  let es_dir := get_candle_direction es
  let nq_dir := get_candle_direction nq
  if es_dir = 0 ∨ nq_dir = 0 then active
  else if config.min_atr > 0 ∧ es.atr_14.isSome ∧
      es.atr_14.getD 0 < config.min_atr then active
  else if es_dir ≠ nq_dir then
    addCandidate config ts es_dir nq_dir Asset.NQ nq
      (addCandidate config ts es_dir nq_dir Asset.ES es active)
  else active

/-- Mutable state of one `GoldenProtocolBacktest.run`: completed setups in
completion order plus the ordered active dict. -/
structure EngineState where
  results : List TradeSetup := []
  active : List (Asset × TradeSetup) := []
deriving DecidableEq

/-- One iteration of the main loop of `run`: advance actives, then scan for
a new divergence. -/
def runStep (config : BacktestConfig) (st : EngineState) (ts : Nat)
    (es nq : Candle) : EngineState :=
  let pr := processList config ts es nq st.active
  { results := st.results ++ pr.1, active := checkForPpi config ts es nq pr.2 }

/-- The main loop of `run`: iterate over the ES index; a timestamp missing
from the NQ frame raises a `KeyError`, modelled as `Except.error`. -/
def runLoop (config : BacktestConfig) (nq_data : List (Nat × Candle)) :
    EngineState → List (Nat × Candle) → Except Nat EngineState
  | st, [] => Except.ok st
  | st, (ts, esc) :: rest =>
    match lookupBar nq_data ts with
    | none => Except.error ts
    | some nqc => runLoop config nq_data (runStep config st ts esc nqc) rest

/-- Embedding of `GoldenProtocolBacktest.run`: run the loop, then force-close every
still-active setup as EXPIRED. -/
def run (config : BacktestConfig) (es_data nq_data : List (Nat × Candle)) :
    Except Nat (List TradeSetup) :=
  match runLoop config nq_data {} es_data with
  | Except.error ts => Except.error ts
  | Except.ok st =>
    Except.ok (st.results ++ st.active.map (fun p =>
      { p.2 with state := TradeState.EXPIRED,
                 outcome := some Outcome.EXPIRED }))

/-- Embedding of `BacktestResults.wins`. -/
def wins (trades : List TradeSetup) : Nat :=
  trades.countP (fun t => decide (t.state = TradeState.WIN))

/-- Embedding of `BacktestResults.losses`. -/
def losses (trades : List TradeSetup) : Nat :=
  trades.countP (fun t => decide (t.state = TradeState.LOSS))

/-- Embedding of `BacktestResults.win_rate`: `wins / filled * 100` when there are filled
trades, otherwise 0. -/
def win_rate (trades : List TradeSetup) : ℚ :=
  let filled := wins trades + losses trades
  if filled > 0 then (wins trades : ℚ) / (filled : ℚ) * 100 else 0

end Engine

namespace Opt

/-- Embedding of `BacktestConfig` from `es_rr_optimizer.py` (this variant has the
`use_trailing_fib` toggle). -/
structure BacktestConfig where
  timeframe_minutes : Nat := 2
  ppi_expiry_candles : Nat := 12
  entry_expiry_candles : Nat := 7
  fib_entry : ℚ := 1/2
  fib_stop : ℚ := 23/20
  fib_target : ℚ := 0
  es_point_value : ℚ := 50
  nq_point_value : ℚ := 20
  min_wick_frac : ℚ := 1/4
  max_atr : ℚ := 6
  use_trailing_fib : Bool := true
deriving DecidableEq

/-- Embedding of the `TradeSetup` dataclass of `es_rr_optimizer.py`. -/
structure TradeSetup where
  ppi_time : Nat
  ppi_high : ℚ
  ppi_low : ℚ
  asset : Asset
  state : TradeState := TradeState.PPI
  candles_since_ppi : Nat := 0
  candles_since_bos : Nat := 0
  sweep_time : Option Nat := none
  sweep_direction : Option TradeDirection := none
  sweep_extreme : Option ℚ := none
  bos_time : Option Nat := none
  fib_0 : Option ℚ := none
  fib_1 : Option ℚ := none
  entry_price : Option ℚ := none
  stop_price : Option ℚ := none
  target_price : Option ℚ := none
  fill_time : Option Nat := none
  outcome : Option Outcome := none
  pnl : ℚ := 0
deriving DecidableEq

/-- Embedding of `calculate_fib_levels` from `es_rr_optimizer.py`: all three levels use the
same sign (`+` for SHORT, `-` for LONG), including the target. -/
def calculate_fib_levels (fib_0 fib_1 : ℚ) (dir : TradeDirection)
    (config : BacktestConfig) : ℚ × ℚ × ℚ :=
  let fib_range := pyabs (fib_1 - fib_0)
  if dir = TradeDirection.SHORT then
    (fib_0 + config.fib_entry * fib_range,
     fib_0 + config.fib_stop * fib_range,
     fib_0 + config.fib_target * fib_range)
  else
    (fib_0 - config.fib_entry * fib_range,
     fib_0 - config.fib_stop * fib_range,
     fib_0 - config.fib_target * fib_range)

/-- Embedding of `_process_ppi`: expiry, then the bearish sweep with the inline wick-ratio
computation (`wick_up / range`, guarded by `range > 0`). -/
def processPpi (config : BacktestConfig) (trade : TradeSetup) (ts : Nat)
    (candle : Candle) : TradeSetup :=
  let t := { trade with candles_since_ppi := trade.candles_since_ppi + 1 }
  if t.candles_since_ppi > config.ppi_expiry_candles then
    { t with state := TradeState.EXPIRED }
  else if candle.high > t.ppi_high ∧ candle.close ≤ t.ppi_high then
    let wick_up := candle.high - pymax candle.open_ candle.close
    let candle_range := candle.high - candle.low
    if candle_range > 0 ∧ wick_up / candle_range ≥ config.min_wick_frac then
      { t with state := TradeState.SWEEP,
               sweep_direction := some TradeDirection.SHORT,
               sweep_extreme := some candle.high,
               fib_1 := some candle.high }
    else t
  else t

/-- Embedding of `_process_sweep`: BOS close below the PPI low confirms the short. -/
def processSweep (config : BacktestConfig) (trade : TradeSetup) (ts : Nat)
    (candle : Candle) : TradeSetup :=
  if trade.sweep_direction = some TradeDirection.SHORT then
    if candle.close < trade.ppi_low then
      let lv := calculate_fib_levels candle.low (trade.fib_1.getD 0)
        TradeDirection.SHORT config
      { trade with bos_time := some ts, fib_0 := some candle.low,
                   entry_price := some lv.1, stop_price := some lv.2.1,
                   target_price := some lv.2.2, state := TradeState.PENDING }
    else trade
  else trade

/-- Embedding of `_process_pending` from `es_rr_optimizer.py`: trailing happens only when
`use_trailing_fib` is set; then fill check, then expiry. -/
def processPending (config : BacktestConfig) (trade : TradeSetup) (ts : Nat)
    (candle : Candle) : TradeSetup :=
  let t1 := { trade with candles_since_bos := trade.candles_since_bos + 1 }
  let t2 :=
    if config.use_trailing_fib = true ∧
        t1.sweep_direction = some TradeDirection.SHORT ∧
        candle.low < t1.fib_0.getD 0 then
      let lv := calculate_fib_levels candle.low (t1.fib_1.getD 0)
        TradeDirection.SHORT config
      { t1 with fib_0 := some candle.low, entry_price := some lv.1,
                stop_price := some lv.2.1, target_price := some lv.2.2 }
    else t1
  if t2.sweep_direction = some TradeDirection.SHORT ∧
      candle.high ≥ t2.entry_price.getD 0 then
    { t2 with fill_time := some ts, state := TradeState.FILLED }
  else if t2.candles_since_bos ≥ config.entry_expiry_candles then
    { t2 with state := TradeState.EXPIRED }
  else t2

/-- Embedding of `_process_filled` from `es_rr_optimizer.py`: stop first (conservative),
then target; only the SHORT branch exists. -/
def processFilled (config : BacktestConfig) (trade : TradeSetup) (ts : Nat)
    (candle : Candle) : TradeSetup :=
  if trade.sweep_direction = some TradeDirection.SHORT then
    if candle.high ≥ trade.stop_price.getD 0 then
      { trade with state := TradeState.LOSS,
                   pnl := (trade.entry_price.getD 0 - trade.stop_price.getD 0) *
                     config.es_point_value }
    else if candle.low ≤ trade.target_price.getD 0 then
      { trade with state := TradeState.WIN,
                   pnl := (trade.entry_price.getD 0 - trade.target_price.getD 0) *
                     config.es_point_value }
    else trade
  else trade

/-- Phase dispatch of `_process_active_trades` for a single setup. -/
def stepTrade (config : BacktestConfig) (ts : Nat) (candle : Candle)
    (trade : TradeSetup) : TradeSetup :=
  match trade.state with
  | TradeState.PPI => processPpi config trade ts candle
  | TradeState.SWEEP => processSweep config trade ts candle
  | TradeState.PENDING => processPending config trade ts candle
  | TradeState.FILLED => processFilled config trade ts candle
  | _ => trade

/-- Embedding of `_process_active_trades` over the insertion-ordered dict. -/
def processList (config : BacktestConfig) (ts : Nat) (es nq : Candle) :
    List (Asset × TradeSetup) → List TradeSetup × List (Asset × TradeSetup)
  | [] => ([], [])
  | (a, t) :: rest =>
    let candle := if a = Asset.ES then es else nq
    let t2 := stepTrade config ts candle t
    let acc := processList config ts es nq rest
    if Engine.isTerminal t2.state then (t2 :: acc.1, acc.2)
    else (acc.1, (a, t2) :: acc.2)

/-- Embedding of `_check_for_ppi` from `es_rr_optimizer.py`: on divergence, only an ES
setup is created. -/
def checkForPpi (ts : Nat) (es nq : Candle)
    (active : List (Asset × TradeSetup)) : List (Asset × TradeSetup) :=
  let es_dir := get_candle_direction es
  let nq_dir := get_candle_direction nq
  if es_dir ≠ 0 ∧ nq_dir ≠ 0 ∧ es_dir ≠ nq_dir then
    if (active.find? (fun p => decide (p.1 = Asset.ES))).isSome then active
    else active ++ [(Asset.ES,
      { ppi_time := ts, ppi_high := es.high, ppi_low := es.low,
        asset := Asset.ES })]
  else active

/-- Mutable state of one `BacktestEngine.run` of the optimizer. -/
structure EngineState where
  completed : List TradeSetup := []
  active : List (Asset × TradeSetup) := []
deriving DecidableEq

/-- One iteration of the optimizer run loop. -/
def runStep (config : BacktestConfig) (st : EngineState) (ts : Nat)
    (es nq : Candle) : EngineState :=
  let pr := processList config ts es nq st.active
  { completed := st.completed ++ pr.1, active := checkForPpi ts es nq pr.2 }

/-- The timestamps and candle pairs the optimizer run actually processes:
`es_bars.index.intersection(nq_bars.index)`, in ES-index order. -/
def common (es nq : List (Nat × Candle)) : List (Nat × Candle × Candle) :=
  es.filterMap (fun p => (lookupBar nq p.1).map (fun nc => (p.1, p.2, nc)))

/-- The intersected timestamp index itself. -/
def commonIdx (es nq : List (Nat × Candle)) : List Nat :=
  (common es nq).map (fun q => q.1)

/-- Fold of the optimizer run loop over the common timestamps. -/
def runLoop (config : BacktestConfig) :
    EngineState → List (Nat × Candle × Candle) → EngineState
  | st, [] => st
  | st, (ts, ec, nc) :: rest =>
    runLoop config (runStep config st ts ec nc) rest

/-- Summary dict returned by the optimizer `run`. -/
structure RunStats where
  wins : Nat
  losses : Nat
  filled : Nat
  win_rate : ℚ
  pnl : ℚ
  rr : ℚ
deriving DecidableEq

/-- Embedding of `BacktestEngine.run` from `es_rr_optimizer.py`: process the common index,
then summarize the completed trades (active trades at stream end are
dropped, not force-closed). -/
def run (config : BacktestConfig) (es nq : List (Nat × Candle)) : RunStats :=
  let final := runLoop config {} (common es nq)
  let wins := final.completed.countP
    (fun t => decide (t.state = TradeState.WIN))
  let losses := final.completed.countP
    (fun t => decide (t.state = TradeState.LOSS))
  let filled := wins + losses
  { wins := wins, losses := losses, filled := filled,
    win_rate := if filled > 0 then (wins : ℚ) / (filled : ℚ) * 100 else 0,
    pnl := (final.completed.map (fun t => t.pnl)).sum,
    rr := if config.fib_stop - config.fib_entry > 0 then
        config.fib_entry / (config.fib_stop - config.fib_entry)
      else 0 }

end Opt

/-! ### Helper lemmas -/

theorem beStep_sweep_direction (config : Engine.BacktestConfig)
    (t : Engine.TradeSetup) (c : Candle) :
    (Engine.beStep config t c).sweep_direction = t.sweep_direction := by
  unfold Engine.beStep
  dsimp only
  split_ifs <;> rfl

theorem beStep_entry_price (config : Engine.BacktestConfig)
    (t : Engine.TradeSetup) (c : Candle) :
    (Engine.beStep config t c).entry_price = t.entry_price := by
  unfold Engine.beStep
  dsimp only
  split_ifs <;> rfl

theorem beStep_target_price (config : Engine.BacktestConfig)
    (t : Engine.TradeSetup) (c : Candle) :
    (Engine.beStep config t c).target_price = t.target_price := by
  unfold Engine.beStep
  dsimp only
  split_ifs <;> rfl

theorem beStep_stop_price (config : Engine.BacktestConfig)
    (t : Engine.TradeSetup) (c : Candle) :
    (Engine.beStep config t c).stop_price = t.stop_price ∨
      (Engine.beStep config t c).stop_price = t.entry_price := by
  unfold Engine.beStep
  dsimp only
  split_ifs <;> simp

theorem resolveStep_short_loss (config : Engine.BacktestConfig)
    (t : Engine.TradeSetup) (ts : Nat) (c : Candle)
    (hdir : t.sweep_direction = some TradeDirection.SHORT)
    (hhi : c.high ≥ t.stop_price.getD 0) :
    (Engine.resolveStep config t ts c).state = TradeState.LOSS := by
  simp [Engine.resolveStep, hdir, hhi]

theorem resolveStep_long_loss (config : Engine.BacktestConfig)
    (t : Engine.TradeSetup) (ts : Nat) (c : Candle)
    (hdir : t.sweep_direction = some TradeDirection.LONG)
    (hlo : c.low ≤ t.stop_price.getD 0) :
    (Engine.resolveStep config t ts c).state = TradeState.LOSS := by
  simp [Engine.resolveStep, hdir, hlo]

/-- Claim C1: outcome tie-break.  For a FILLED setup, on any candle whose
range crosses both the stop and the target levels, every engine resolves
the setup to LOSS, never WIN: the main engine for SHORT and LONG (with the
direction-appropriate ordering of entry and stop, which every
engine-generated setup satisfies), and the optimizer engine for SHORT. -/
theorem C1_tiebreak_resolves_to_loss :
    (∀ (config : Engine.BacktestConfig) (t : Engine.TradeSetup) (ts : Nat)
        (c : Candle) (e s tp : ℚ),
      t.sweep_direction = some TradeDirection.SHORT →
      t.entry_price = some e → t.stop_price = some s →
      t.target_price = some tp → e ≤ s →
      c.high ≥ s → c.low ≤ tp →
      (Engine.processFilledPhase config t ts c).state = TradeState.LOSS) ∧
    (∀ (config : Engine.BacktestConfig) (t : Engine.TradeSetup) (ts : Nat)
        (c : Candle) (e s tp : ℚ),
      t.sweep_direction = some TradeDirection.LONG →
      t.entry_price = some e → t.stop_price = some s →
      t.target_price = some tp → s ≤ e →
      c.low ≤ s → c.high ≥ tp →
      (Engine.processFilledPhase config t ts c).state = TradeState.LOSS) ∧
    (∀ (config : Opt.BacktestConfig) (t : Opt.TradeSetup) (ts : Nat)
        (c : Candle) (s tp : ℚ),
      t.sweep_direction = some TradeDirection.SHORT →
      t.stop_price = some s → t.target_price = some tp →
      c.high ≥ s → c.low ≤ tp →
      (Opt.processFilled config t ts c).state = TradeState.LOSS) := by
  refine ⟨?_, ?_, ?_⟩
  · intro config t ts c e s tp hdir hep hsp htp hes hhi _
    unfold Engine.processFilledPhase
    apply resolveStep_short_loss
    · rw [beStep_sweep_direction, hdir]
    · rcases beStep_stop_price config t c with h | h
      · rw [h, hsp]; exact hhi
      · rw [h, hep]; exact le_trans hes hhi
  · intro config t ts c e s tp hdir hep hsp htp hse hlo _
    unfold Engine.processFilledPhase
    apply resolveStep_long_loss
    · rw [beStep_sweep_direction, hdir]
    · rcases beStep_stop_price config t c with h | h
      · rw [h, hsp]; exact hlo
      · rw [h, hep]; exact le_trans hlo hse
  · intro config t ts c s tp hdir hsp htp hhi _
    unfold Opt.processFilled
    rw [if_pos hdir, if_pos (by rw [hsp]; exact hhi)]

/-- Concrete FILLED SHORT setup used by several witnesses: entry 100,
stop 103, target 97. -/
def tFilledShort : Engine.TradeSetup :=
  { ppi_time := 1, ppi_high := 102, ppi_low := 99, asset := Asset.ES,
    sweep_direction := some TradeDirection.SHORT,
    fib_0 := some 97, fib_1 := some 103,
    entry_price := some 100, stop_price := some 103,
    target_price := some 97, fill_time := some 4,
    state := TradeState.FILLED }

/-- Witness for C1: a candle spanning 96 to 104 crosses both stop 103 and
target 97 of the concrete FILLED short; the engine resolves it to LOSS. -/
theorem C1_tiebreak_resolves_to_loss_witness :
    (Engine.processFilledPhase {} tFilledShort 5
      { open_ := 100, high := 104, low := 96, close := 100 }).state =
      TradeState.LOSS :=
  C1_tiebreak_resolves_to_loss.1 {} tFilledShort 5
    { open_ := 100, high := 104, low := 96, close := 100 }
    100 103 97 rfl rfl rfl rfl (by norm_num) (by norm_num) (by norm_num)

/-- Optimizer configuration with a positive `fib_target`, exposing the sign
of the target formula. -/
def cfgTargetOne : Opt.BacktestConfig :=
  { fib_target := 1 }

/-- Main-engine configuration with `fib_stop = 2`, exposing that the main
engine ignores `fib_stop`. -/
def cfgStopTwo : Engine.BacktestConfig :=
  { fib_stop := 2 }

/-- Counterexample for C2: with `fib_0 = 0`, `fib_1 = 2` (SHORT), the
optimizer engine computes `target = fib_0 + fib_target * range`, not the
claimed `fib_0 - fib_target * range`, and the main engine computes
`stop = fib_1`, not the claimed `fib_0 + fib_stop * range`. -/
theorem C2_fib_levels_counterexample :
    (Opt.calculate_fib_levels 0 2 TradeDirection.SHORT cfgTargetOne).2.2 ≠
      0 - cfgTargetOne.fib_target * |(2 : ℚ) - 0| ∧
    (Engine.calculate_fib_levels 0 2 TradeDirection.SHORT cfgStopTwo).2.1 ≠
      0 + cfgStopTwo.fib_stop * |(2 : ℚ) - 0| := by
  constructor
  · norm_num [Opt.calculate_fib_levels, cfgTargetOne, pyabs]
  · norm_num [Engine.calculate_fib_levels, cfgStopTwo, pyabs]

/-- Claim C2 (amended): in the optimizer engine all three levels use the
same sign — `entry/stop/target = fib_0 + fib·range` for SHORT and
`fib_0 - fib·range` for LONG, including the target; in the main engine's
FIB mode the entry is `fib_0 ± fib_entry·range` but the stop is always
`fib_1` and the target always `fib_0` (`fib_stop` and `fib_target` are
ignored). -/
theorem C2_fib_levels_amended :
    (∀ (f0 f1 : ℚ) (config : Opt.BacktestConfig),
      Opt.calculate_fib_levels f0 f1 TradeDirection.SHORT config =
        (f0 + config.fib_entry * |f1 - f0|,
         f0 + config.fib_stop * |f1 - f0|,
         f0 + config.fib_target * |f1 - f0|) ∧
      Opt.calculate_fib_levels f0 f1 TradeDirection.LONG config =
        (f0 - config.fib_entry * |f1 - f0|,
         f0 - config.fib_stop * |f1 - f0|,
         f0 - config.fib_target * |f1 - f0|)) ∧
    (∀ (f0 f1 : ℚ) (config : Engine.BacktestConfig),
      config.entry_mode = EntryMode.FIB →
      Engine.calculate_fib_levels f0 f1 TradeDirection.SHORT config =
        (f0 + config.fib_entry * |f1 - f0|, f1, f0) ∧
      Engine.calculate_fib_levels f0 f1 TradeDirection.LONG config =
        (f0 - config.fib_entry * |f1 - f0|, f1, f0)) := by
  refine ⟨fun f0 f1 config => ⟨?_, ?_⟩, fun f0 f1 config h => ⟨?_, ?_⟩⟩
  · simp [Opt.calculate_fib_levels, pyabs_eq_abs]
  · simp [Opt.calculate_fib_levels, pyabs_eq_abs]
  · simp [Engine.calculate_fib_levels, h, pyabs_eq_abs]
  · simp [Engine.calculate_fib_levels, h, pyabs_eq_abs]

/-- Witness for C2 (amended): the main-engine FIB conjunct at the reference
levels `fib_0 = 97`, `fib_1 = 103` of the default configuration. -/
theorem C2_fib_levels_amended_witness :
    Engine.calculate_fib_levels 97 103 TradeDirection.SHORT {} =
      (97 + ({} : Engine.BacktestConfig).fib_entry * |(103 : ℚ) - 97|,
       103, 97) :=
  (C2_fib_levels_amended.2 97 103 {} rfl).1

/-- A minimal completed WIN setup, for result-aggregation tests. -/
def tradeWinSample : Engine.TradeSetup :=
  { ppi_time := 0, ppi_high := 1, ppi_low := 0, asset := Asset.ES,
    state := TradeState.WIN }

/-- A minimal completed LOSS setup, for result-aggregation tests. -/
def tradeLossSample : Engine.TradeSetup :=
  { ppi_time := 0, ppi_high := 1, ppi_low := 0, asset := Asset.ES,
    state := TradeState.LOSS }

/-- Counterexample for C9: with one WIN and one LOSS the collector reports
`win_rate = 50` (a percentage), which differs from the claimed
`wins/(wins+losses) = 1/2`. -/
theorem C9_win_rate_counterexample :
    0 < Engine.wins [tradeWinSample, tradeLossSample] +
        Engine.losses [tradeWinSample, tradeLossSample] ∧
    Engine.win_rate [tradeWinSample, tradeLossSample] ≠
      (Engine.wins [tradeWinSample, tradeLossSample] : ℚ) /
        ((Engine.wins [tradeWinSample, tradeLossSample] +
          Engine.losses [tradeWinSample, tradeLossSample] : Nat) : ℚ) := by
  have hw : Engine.wins [tradeWinSample, tradeLossSample] = 1 := rfl
  have hl : Engine.losses [tradeWinSample, tradeLossSample] = 1 := rfl
  constructor
  · rw [hw, hl]
    norm_num
  · unfold Engine.win_rate
    rw [hw, hl]
    norm_num

/-- Claim C9 (amended): for every collection of completed setups the
collector's `win_rate` equals `wins/(wins+losses) * 100` (a percentage)
when `wins + losses > 0`, and 0 when there are no filled trades. -/
theorem C9_win_rate_amended :
    ∀ trades : List Engine.TradeSetup,
      (0 < Engine.wins trades + Engine.losses trades →
        Engine.win_rate trades =
          (Engine.wins trades : ℚ) /
            ((Engine.wins trades + Engine.losses trades : Nat) : ℚ) * 100) ∧
      (Engine.wins trades + Engine.losses trades = 0 →
        Engine.win_rate trades = 0) := by
  intro trades
  constructor
  · intro h
    simp [Engine.win_rate, h]
  · intro h
    simp [Engine.win_rate, h]

/-- Witness for C9 (amended): the percentage formula evaluated on the
two-trade sample, where it yields 50. -/
theorem C9_win_rate_amended_witness :
    Engine.win_rate [tradeWinSample, tradeLossSample] =
      (Engine.wins [tradeWinSample, tradeLossSample] : ℚ) /
        ((Engine.wins [tradeWinSample, tradeLossSample] +
          Engine.losses [tradeWinSample, tradeLossSample] : Nat) : ℚ) * 100 :=
  (C9_win_rate_amended [tradeWinSample, tradeLossSample]).1
    (by norm_num [show Engine.wins [tradeWinSample, tradeLossSample] = 1
        from rfl,
      show Engine.losses [tradeWinSample, tradeLossSample] = 1 from rfl])

/-- ES bars of a four-candle scenario: divergence at 1, bearish sweep at 2,
BOS at 3 (entry 100, stop 103, target 97), fill at 4, then the stream ends
while the setup is FILLED. -/
def esBarsA : List (Nat × Candle) :=
  [(1, { open_ := 100, high := 102, low := 99, close := 101 }),
   (2, { open_ := 101, high := 103, low := 100, close := 101 }),
   (3, { open_ := 99, high := 100, low := 97, close := 98 }),
   (4, { open_ := 99, high := 101, low := 98, close := 100 })]

/-- NQ bars of the same scenario: red divergence candle at 1, then inert
doji bars that neither sweep nor diverge. -/
def nqBarsA : List (Nat × Candle) :=
  [(1, { open_ := 200, high := 201, low := 198, close := 199 }),
   (2, { open_ := 199, high := 200, low := 397/2, close := 199 }),
   (3, { open_ := 199, high := 200, low := 397/2, close := 199 }),
   (4, { open_ := 199, high := 200, low := 397/2, close := 199 })]

/-- Final record of the ES setup of the scenario: it reached FILLED at
timestamp 4 (`fill_time = some 4`) and was then force-closed EXPIRED when
the stream ended. -/
def tESA_final : Engine.TradeSetup :=
  { ppi_time := 1, ppi_es_dir := 1, ppi_nq_dir := -1, ppi_high := 102,
    ppi_low := 99, asset := Asset.ES, sweep_time := some 2,
    sweep_direction := some TradeDirection.SHORT, sweep_extreme := some 103,
    bos_time := some 3, bos_extreme := some 97, fib_0 := some 97,
    fib_1 := some 103, entry_price := some 100, stop_price := some 103,
    target_price := some 97, fill_time := some 4,
    state := TradeState.EXPIRED, candles_since_ppi := 1,
    candles_since_bos := 1, outcome := some Outcome.EXPIRED }

/-- Final record of the NQ setup of the scenario: still in PPI at stream
end, force-closed EXPIRED. -/
def tNQA_final : Engine.TradeSetup :=
  { ppi_time := 1, ppi_es_dir := 1, ppi_nq_dir := -1, ppi_high := 201,
    ppi_low := 198, asset := Asset.NQ, state := TradeState.EXPIRED,
    candles_since_ppi := 3, outcome := some Outcome.EXPIRED }

/-- Counterexample for C7: the four-candle scenario ends while the ES setup
is FILLED (`fill_time = some 4`; `fill_time` is assigned exactly at the
PENDING-to-FILLED transition and FILLED only ever steps to WIN or LOSS),
and the run's force-close still emits it as a completed setup in state
EXPIRED — so EXPIRED is reached from FILLED, contradicting the claim. -/
theorem C7_expired_from_filled_counterexample :
    Engine.run {} esBarsA nqBarsA = Except.ok [tESA_final, tNQA_final] ∧
    tESA_final.state = TradeState.EXPIRED ∧
    tESA_final.fill_time = some 4 := by
  refine ⟨?_, rfl, rfl⟩
  norm_num [Engine.run, Engine.runLoop, Engine.runStep,
    Engine.processList, Engine.stepTrade, Engine.processPpiPhase,
    Engine.processSweepPhase, Engine.processPendingPhase,
    Engine.processFilledPhase, Engine.beStep, Engine.resolveStep,
    Engine.trailStep, Engine.fillOrExpire, Engine.calculate_fib_levels,
    Engine.checkForPpi, Engine.addCandidate, Engine.trendBlocks,
    Engine.mkPpiSetup, Engine.isTerminal, get_candle_direction, lookupBar,
    emaLookup, pyabs, esBarsA, nqBarsA, List.find?, asset_nq_ne_es,
    asset_es_ne_nq, tESA_final, tNQA_final]

def esC1 : Candle := { open_ := 100, high := 102, low := 99, close := 101 }

def esC2 : Candle := { open_ := 101, high := 103, low := 100, close := 101 }

def nqC1 : Candle := { open_ := 200, high := 201, low := 198, close := 199 }

def nqCx : Candle := { open_ := 199, high := 200, low := 397/2, close := 199 }

def tES1 : Engine.TradeSetup := Engine.mkPpiSetup 1 1 (-1) esC1 Asset.ES

def tNQ1 : Engine.TradeSetup := Engine.mkPpiSetup 1 1 (-1) nqC1 Asset.NQ

def tES2 : Engine.TradeSetup :=
  { tES1 with
    candles_since_ppi := 1,
    sweep_time := some 2,
    sweep_direction := some TradeDirection.SHORT,
    sweep_extreme := some 103,
    fib_1 := some 103,
    state := TradeState.SWEEP }

def tNQ2 : Engine.TradeSetup := { tNQ1 with candles_since_ppi := 1 }


theorem beStep_state (config : Engine.BacktestConfig)
    (t : Engine.TradeSetup) (c : Candle) :
    (Engine.beStep config t c).state = t.state := by
  unfold Engine.beStep
  dsimp only
  split_ifs <;> rfl

/-- Claim C7 (amended): during the stream, EXPIRED is never reached from
FILLED — a step of the engine on a FILLED setup yields FILLED, WIN or LOSS
(mid-stream expiry happens only from PPI and PENDING); only the
end-of-stream force-close, which marks every still-active setup EXPIRED
regardless of its state, reaches EXPIRED from FILLED (or from SWEEP). -/
theorem C7_no_expiry_from_filled_midstream :
    ∀ (config : Engine.BacktestConfig) (t : Engine.TradeSetup) (ts : Nat)
      (c : Candle), t.state = TradeState.FILLED →
      (Engine.stepTrade config ts c t).state ≠ TradeState.EXPIRED := by
  intro config t ts c h
  have hstep : Engine.stepTrade config ts c t =
      Engine.processFilledPhase config t ts c := by
    unfold Engine.stepTrade
    rw [h]
  rw [hstep]
  unfold Engine.processFilledPhase Engine.resolveStep
  dsimp only
  split_ifs <;> simp [beStep_state, h]

/-- Witness for C7 (amended): a FILLED setup stepped on a quiet candle does
not become EXPIRED. -/
theorem C7_no_expiry_from_filled_midstream_witness :
    (Engine.stepTrade {} 5 { open_ := 100, high := 99, low := 98, close := 99 }
      tFilledShort).state ≠ TradeState.EXPIRED :=
  C7_no_expiry_from_filled_midstream {} tFilledShort 5
    { open_ := 100, high := 99, low := 98, close := 99 } rfl

/-- Main-engine configuration with the breakeven rule armed at 1R. -/
def cfgBE : Engine.BacktestConfig := { breakeven_trigger_r := 1 }

/-- ES bars of the breakeven scenario: divergence at 1, sweep at 2, BOS at 3
(entry 100, stop 103, target 97), fill at 4, and at 5 a candle with low 97
that first arms breakeven (trigger 100 - 3 = 97, stop moved to 100) and
then hits the target. -/
def esBarsB : List (Nat × Candle) :=
  [(1, { open_ := 100, high := 102, low := 99, close := 101 }),
   (2, { open_ := 101, high := 103, low := 100, close := 101 }),
   (3, { open_ := 99, high := 100, low := 97, close := 98 }),
   (4, { open_ := 99, high := 100, low := 98, close := 99 }),
   (5, { open_ := 99, high := 99, low := 97, close := 98 })]

/-- NQ bars of the breakeven scenario: red divergence candle at 1, then
inert doji bars. -/
def nqBarsB : List (Nat × Candle) :=
  [(1, { open_ := 200, high := 201, low := 198, close := 199 }),
   (2, { open_ := 199, high := 200, low := 397/2, close := 199 }),
   (3, { open_ := 199, high := 200, low := 397/2, close := 199 }),
   (4, { open_ := 199, high := 200, low := 397/2, close := 199 }),
   (5, { open_ := 199, high := 200, low := 397/2, close := 199 })]

/-- Final ES record of the breakeven scenario: a completed SHORT WIN whose
stop was overwritten with the entry price (both 100). -/
def tESB_final : Engine.TradeSetup :=
  { ppi_time := 1, ppi_es_dir := 1, ppi_nq_dir := -1, ppi_high := 102,
    ppi_low := 99, asset := Asset.ES, sweep_time := some 2,
    sweep_direction := some TradeDirection.SHORT, sweep_extreme := some 103,
    bos_time := some 3, bos_extreme := some 97, fib_0 := some 97,
    fib_1 := some 103, entry_price := some 100, stop_price := some 100,
    target_price := some 97, fill_time := some 4, state := TradeState.WIN,
    candles_since_ppi := 1, candles_since_bos := 1,
    outcome := some Outcome.WIN, outcome_time := some 5, pnl := 150,
    breakeven_active := true }

/-- Final NQ record of the breakeven scenario. -/
def tNQB_final : Engine.TradeSetup :=
  { ppi_time := 1, ppi_es_dir := 1, ppi_nq_dir := -1, ppi_high := 201,
    ppi_low := 198, asset := Asset.NQ, state := TradeState.EXPIRED,
    candles_since_ppi := 4, outcome := some Outcome.EXPIRED }

/-- Counterexample for C8: a run whose configuration satisfies
`0 < fib_entry < fib_stop` completes a SHORT setup (as WIN) whose recorded
levels do not satisfy `entry_price < stop_price` — the breakeven adjustment
overwrote the stop with the entry. -/
theorem C8_level_ordering_counterexample :
    Engine.run cfgBE esBarsB nqBarsB = Except.ok [tESB_final, tNQB_final] ∧
    0 < cfgBE.fib_entry ∧ cfgBE.fib_entry < cfgBE.fib_stop ∧
    tESB_final.sweep_direction = some TradeDirection.SHORT ∧
    tESB_final.state = TradeState.WIN ∧
    ¬(tESB_final.entry_price.getD 0 < tESB_final.stop_price.getD 0) := by
  refine ⟨?_, by norm_num [cfgBE], by norm_num [cfgBE], rfl, rfl,
    by norm_num [tESB_final]⟩
  norm_num [Engine.run, Engine.runLoop, Engine.runStep,
    Engine.processList, Engine.stepTrade, Engine.processPpiPhase,
    Engine.processSweepPhase, Engine.processPendingPhase,
    Engine.processFilledPhase, Engine.beStep, Engine.resolveStep,
    Engine.trailStep, Engine.fillOrExpire, Engine.calculate_fib_levels,
    Engine.checkForPpi, Engine.addCandidate, Engine.trendBlocks,
    Engine.mkPpiSetup, Engine.isTerminal, get_candle_direction, lookupBar,
    emaLookup, pyabs, esBarsB, nqBarsB, List.find?, asset_nq_ne_es,
    asset_es_ne_nq, cfgBE, tESB_final, tNQB_final]

/-- Claim C8 (amended): the strict SHORT ordering
`target < entry < stop` holds for the levels every level-computing
operation produces, under the hypotheses the formulas actually need —
main engine FIB mode: `0 < fib_entry < 1` (its stop is `fib_1`, i.e. a
hard-coded `fib_stop = 1`); optimizer engine: `0 < fib_entry < fib_stop`
and `fib_target < fib_entry` — and provided the breakeven adjustment has
not fired: when it fires it sets `stop_price = entry_price`, reducing the
ordering to `target < entry = stop`. -/
theorem C8_level_ordering_amended :
    (∀ (config : Engine.BacktestConfig) (f0 f1 : ℚ),
      config.entry_mode = EntryMode.FIB → 0 < config.fib_entry →
      config.fib_entry < 1 → f0 < f1 →
      (Engine.calculate_fib_levels f0 f1 TradeDirection.SHORT config).2.2 <
        (Engine.calculate_fib_levels f0 f1 TradeDirection.SHORT config).1 ∧
      (Engine.calculate_fib_levels f0 f1 TradeDirection.SHORT config).1 <
        (Engine.calculate_fib_levels f0 f1 TradeDirection.SHORT config).2.1) ∧
    (∀ (config : Opt.BacktestConfig) (f0 f1 : ℚ),
      0 < config.fib_entry → config.fib_entry < config.fib_stop →
      config.fib_target < config.fib_entry → f0 < f1 →
      (Opt.calculate_fib_levels f0 f1 TradeDirection.SHORT config).2.2 <
        (Opt.calculate_fib_levels f0 f1 TradeDirection.SHORT config).1 ∧
      (Opt.calculate_fib_levels f0 f1 TradeDirection.SHORT config).1 <
        (Opt.calculate_fib_levels f0 f1 TradeDirection.SHORT config).2.1) ∧
    (∀ (config : Engine.BacktestConfig) (t : Engine.TradeSetup) (c : Candle),
      (Engine.beStep config t c).breakeven_active = true →
      t.breakeven_active = false →
      (Engine.beStep config t c).stop_price = t.entry_price) := by
  have habs : ∀ f0 f1 : ℚ, f0 < f1 → pyabs (f1 - f0) = f1 - f0 := by
    intro f0 f1 hf
    unfold pyabs
    rw [if_neg (not_lt.mpr (by linarith))]
  refine ⟨?_, ?_, ?_⟩
  · intro config f0 f1 hm h0 h1 hf
    simp only [Engine.calculate_fib_levels, hm, habs f0 f1 hf]
    constructor
    · nlinarith [mul_pos h0 (sub_pos.mpr hf)]
    · nlinarith [mul_pos (sub_pos.mpr h1) (sub_pos.mpr hf)]
  · intro config f0 f1 h0 hs ht hf
    simp only [Opt.calculate_fib_levels, eq_self_iff_true, if_true,
      habs f0 f1 hf]
    constructor
    · nlinarith [mul_pos (sub_pos.mpr ht) (sub_pos.mpr hf)]
    · nlinarith [mul_pos (sub_pos.mpr hs) (sub_pos.mpr hf)]
  · intro config t c hba hold
    unfold Engine.beStep at hba ⊢
    dsimp only at hba ⊢
    split_ifs at hba ⊢ <;> simp_all

/-- Witness for C8 (amended): the main-engine conjunct at the default
configuration on the reference range 97 to 103: target 97 < entry 100 <
stop 103. -/
theorem C8_level_ordering_amended_witness :
    (Engine.calculate_fib_levels 97 103 TradeDirection.SHORT {}).2.2 <
      (Engine.calculate_fib_levels 97 103 TradeDirection.SHORT {}).1 ∧
    (Engine.calculate_fib_levels 97 103 TradeDirection.SHORT {}).1 <
      (Engine.calculate_fib_levels 97 103 TradeDirection.SHORT {}).2.1 :=
  C8_level_ordering_amended.1 {} 97 103 rfl (by norm_num) (by norm_num)
    (by norm_num)

/-- A concrete PENDING SHORT setup with fib range 97 to 103 and entry 100. -/
def tPendShort : Engine.TradeSetup :=
  { ppi_time := 1, ppi_high := 102, ppi_low := 99, asset := Asset.ES,
    sweep_time := some 2, sweep_direction := some TradeDirection.SHORT,
    sweep_extreme := some 103, bos_time := some 3, fib_0 := some 97,
    fib_1 := some 103, entry_price := some 100, stop_price := some 103,
    target_price := some 97, state := TradeState.PENDING }

/-- A candle extending the short impulse: low 96 below fib_0 = 97, high
below the entry. -/
def cExtend : Candle := { open_ := 97, high := 98, low := 96, close := 97 }

/-- Counterexample for C3: the main engine re-bases `fib_0` on an
impulse-extending candle under its default configuration — its
`BacktestConfig` has no `use_trailing_fib` field at all, so trailing
cannot be disabled, contradicting the claimed gate. -/
theorem C3_trailing_gate_counterexample :
    (Engine.processPendingPhase {} tPendShort 9 cExtend).fib_0 ≠
      tPendShort.fib_0 ∧
    (Engine.processPendingPhase {} tPendShort 9 cExtend).fib_0 = some 96 := by
  constructor <;>
    norm_num [Engine.processPendingPhase, Engine.trailStep,
      Engine.fillOrExpire, Engine.calculate_fib_levels, pyabs, tPendShort,
      cExtend]

theorem opt_pending_no_trailing (config : Opt.BacktestConfig)
    (t : Opt.TradeSetup) (ts : Nat) (c : Candle)
    (h : config.use_trailing_fib = false) :
    (Opt.processPending config t ts c).fib_0 = t.fib_0 ∧
    (Opt.processPending config t ts c).entry_price = t.entry_price ∧
    (Opt.processPending config t ts c).stop_price = t.stop_price ∧
    (Opt.processPending config t ts c).target_price = t.target_price := by
  unfold Opt.processPending
  dsimp only
  rw [h]
  split_ifs <;> simp_all

theorem opt_pending_trailing (config : Opt.BacktestConfig)
    (t : Opt.TradeSetup) (ts : Nat) (c : Candle) (f0 f1 : ℚ)
    (htr : config.use_trailing_fib = true)
    (hdir : t.sweep_direction = some TradeDirection.SHORT)
    (hf0 : t.fib_0 = some f0) (hf1 : t.fib_1 = some f1) (hlow : c.low < f0) :
    (Opt.processPending config t ts c).fib_0 = some c.low ∧
    (Opt.processPending config t ts c).entry_price =
      some (Opt.calculate_fib_levels c.low f1 TradeDirection.SHORT config).1 ∧
    (Opt.processPending config t ts c).stop_price =
      some (Opt.calculate_fib_levels c.low f1
        TradeDirection.SHORT config).2.1 ∧
    (Opt.processPending config t ts c).target_price =
      some (Opt.calculate_fib_levels c.low f1
        TradeDirection.SHORT config).2.2 := by
  unfold Opt.processPending
  dsimp only
  rw [htr, hdir, hf0, hf1]
  dsimp only [Option.getD]
  have hcond : true = true ∧
      (some TradeDirection.SHORT : Option TradeDirection) =
        some TradeDirection.SHORT ∧ c.low < f0 := ⟨rfl, rfl, hlow⟩
  rw [if_pos hcond]
  split_ifs <;> simp_all

theorem opt_pending_no_extension (config : Opt.BacktestConfig)
    (t : Opt.TradeSetup) (ts : Nat) (c : Candle) (f0 : ℚ)
    (hf0 : t.fib_0 = some f0) (hlow : ¬(c.low < f0)) :
    (Opt.processPending config t ts c).fib_0 = t.fib_0 ∧
    (Opt.processPending config t ts c).entry_price = t.entry_price ∧
    (Opt.processPending config t ts c).stop_price = t.stop_price ∧
    (Opt.processPending config t ts c).target_price = t.target_price := by
  unfold Opt.processPending
  dsimp only
  rw [hf0]
  dsimp only [Option.getD]
  have hcond : ¬(config.use_trailing_fib = true ∧
      t.sweep_direction = some TradeDirection.SHORT ∧ c.low < f0) := by
    rintro ⟨-, -, hc⟩
    exact hlow hc
  rw [if_neg hcond]
  split_ifs <;> simp_all

/-- Claim C3 (amended): only the optimizer engine gates trailing on
`use_trailing_fib` — with the flag off, `fib_0` and the computed levels are
unchanged throughout PENDING; with it on, a SHORT setup re-bases to
`candle.low < fib_0` and recomputes the levels, and keeps them otherwise.
The main engine's configuration has no `use_trailing_fib` field and its
pending phase re-bases `fib_0` unconditionally under every configuration. -/
theorem C3_trailing_gate_amended :
    (∀ (config : Opt.BacktestConfig) (t : Opt.TradeSetup) (ts : Nat)
        (c : Candle), config.use_trailing_fib = false →
      (Opt.processPending config t ts c).fib_0 = t.fib_0 ∧
      (Opt.processPending config t ts c).entry_price = t.entry_price ∧
      (Opt.processPending config t ts c).stop_price = t.stop_price ∧
      (Opt.processPending config t ts c).target_price = t.target_price) ∧
    (∀ (config : Opt.BacktestConfig) (t : Opt.TradeSetup) (ts : Nat)
        (c : Candle) (f0 f1 : ℚ), config.use_trailing_fib = true →
      t.sweep_direction = some TradeDirection.SHORT → t.fib_0 = some f0 →
      t.fib_1 = some f1 → c.low < f0 →
      (Opt.processPending config t ts c).fib_0 = some c.low ∧
      (Opt.processPending config t ts c).entry_price =
        some (Opt.calculate_fib_levels c.low f1
          TradeDirection.SHORT config).1) ∧
    (∀ (config : Opt.BacktestConfig) (t : Opt.TradeSetup) (ts : Nat)
        (c : Candle) (f0 : ℚ), t.fib_0 = some f0 → ¬(c.low < f0) →
      (Opt.processPending config t ts c).fib_0 = t.fib_0) ∧
    (∀ (config : Engine.BacktestConfig) (t : Engine.TradeSetup) (ts : Nat)
        (c : Candle) (f0 : ℚ),
      t.sweep_direction = some TradeDirection.SHORT → t.fib_0 = some f0 →
      c.low < f0 →
      (Engine.processPendingPhase config t ts c).fib_0 = some c.low) := by
  refine ⟨fun config t ts c h => opt_pending_no_trailing config t ts c h,
    fun config t ts c f0 f1 htr hdir hf0 hf1 hlow =>
      ⟨(opt_pending_trailing config t ts c f0 f1 htr hdir hf0 hf1 hlow).1,
       (opt_pending_trailing config t ts c f0 f1 htr hdir hf0 hf1 hlow).2.1⟩,
    fun config t ts c f0 hf0 hlow =>
      (opt_pending_no_extension config t ts c f0 hf0 hlow).1,
    fun config t ts c f0 hdir hf0 hlow => ?_⟩
  unfold Engine.processPendingPhase Engine.trailStep Engine.fillOrExpire
  dsimp only
  rw [hdir, hf0]
  dsimp only [Option.getD]
  have hcond : (some TradeDirection.SHORT : Option TradeDirection) =
      some TradeDirection.SHORT := rfl
  rw [if_pos hcond, if_pos hlow]
  split_ifs <;> simp_all

/-- A concrete PENDING SHORT setup for the optimizer engine. -/
def tPendOpt : Opt.TradeSetup :=
  { ppi_time := 1, ppi_high := 102, ppi_low := 99, asset := Asset.ES,
    sweep_time := some 2, sweep_direction := some TradeDirection.SHORT,
    sweep_extreme := some 103, bos_time := some 3, fib_0 := some 97,
    fib_1 := some 103, entry_price := some 100, stop_price := some 103,
    target_price := some 97, state := TradeState.PENDING }

/-- Witness for C3 (amended): with `use_trailing_fib := false` the
optimizer engine leaves `fib_0` of the concrete pending setup unchanged on
an impulse-extending candle. -/
theorem C3_trailing_gate_amended_witness :
    (Opt.processPending { use_trailing_fib := false } tPendOpt 9
      cExtend).fib_0 = tPendOpt.fib_0 :=
  (C3_trailing_gate_amended.1 { use_trailing_fib := false } tPendOpt 9
    cExtend rfl).1

theorem lookupBar_isSome_iff (l : List (Nat × Candle)) (ts : Nat) :
    (lookupBar l ts).isSome = true ↔ ts ∈ l.map Prod.fst := by
  induction l with
  | nil => simp [lookupBar]
  | cons p rest ih =>
    by_cases h : p.1 = ts
    · simp [lookupBar, List.find?, h]
    · simp only [lookupBar, List.find?] at ih ⊢
      rw [decide_eq_false h]
      simp only [List.map_cons, List.mem_cons]
      rw [ih]
      constructor
      · intro hm
        exact Or.inr hm
      · rintro (h1 | h2)
        · exact absurd h1.symm h
        · exact h2

theorem engine_runLoop_ok_iff (config : Engine.BacktestConfig)
    (nq : List (Nat × Candle)) :
    ∀ (es : List (Nat × Candle)) (st : Engine.EngineState),
      (∃ r, Engine.runLoop config nq st es = Except.ok r) ↔
        ∀ p ∈ es, (lookupBar nq p.1).isSome = true := by
  intro es
  induction es with
  | nil =>
    intro st
    constructor
    · intro _ p hp
      simp at hp
    · intro _
      exact ⟨st, rfl⟩
  | cons p rest ih =>
    intro st
    obtain ⟨ts, esc⟩ := p
    constructor
    · intro ⟨r, hr⟩ q hq
      rw [Engine.runLoop] at hr
      rcases hl : lookupBar nq ts with _ | nqc
      · rw [hl] at hr
        exact absurd hr (by simp)
      · rw [hl] at hr
        rcases List.mem_cons.mp hq with hq1 | hq2
        · rw [hq1]
          simp [hl]
        · exact (ih (Engine.runStep config st ts esc nqc)).mp ⟨r, hr⟩ q hq2
    · intro hall
      have hhead := hall (ts, esc) (List.mem_cons_self _ _)
      rcases hl : lookupBar nq ts with _ | nqc
      · rw [hl] at hhead
        simp at hhead
      · obtain ⟨r, hr⟩ := (ih (Engine.runStep config st ts esc nqc)).mpr
          (fun q hq => hall q (List.mem_cons_of_mem _ hq))
        refine ⟨r, ?_⟩
        rw [Engine.runLoop, hl]
        exact hr

theorem commonIdx_fst_sublist (es nq : List (Nat × Candle)) :
    (Opt.commonIdx es nq).Sublist (es.map Prod.fst) := by
  induction es with
  | nil => simp [Opt.commonIdx, Opt.common]
  | cons p rest ih =>
    unfold Opt.commonIdx Opt.common at ih ⊢
    rw [List.filterMap_cons]
    rcases h : lookupBar nq p.1 with _ | c
    · simp only [Option.map_none']
      exact ih.cons p.1
    · simp only [Option.map_some', List.map_cons]
      exact ih.cons₂ p.1

theorem commonIdx_mem_iff (es nq : List (Nat × Candle)) (ts : Nat) :
    ts ∈ Opt.commonIdx es nq ↔
      (ts ∈ es.map Prod.fst ∧ ts ∈ nq.map Prod.fst) := by
  induction es with
  | nil => simp [Opt.commonIdx, Opt.common]
  | cons p rest ih =>
    unfold Opt.commonIdx Opt.common at ih ⊢
    rw [List.filterMap_cons]
    rcases hl : lookupBar nq p.1 with _ | c
    · have hnot : ¬(p.1 ∈ nq.map Prod.fst) := by
        rw [← lookupBar_isSome_iff nq p.1, hl]
        simp
      simp only [Option.map_none', List.map_cons, List.mem_cons]
      rw [ih]
      constructor
      · rintro ⟨h1, h2⟩
        exact ⟨Or.inr h1, h2⟩
      · rintro ⟨h1 | h1, h2⟩
        · rw [h1] at h2
          exact absurd h2 hnot
        · exact ⟨h1, h2⟩
    · have hmem : p.1 ∈ nq.map Prod.fst := by
        rw [← lookupBar_isSome_iff nq p.1, hl]
        rfl
      simp only [Option.map_some', List.map_cons, List.mem_cons]
      rw [ih]
      constructor
      · rintro (h1 | ⟨h1, h2⟩)
        · rw [h1]
          exact ⟨Or.inl rfl, hmem⟩
        · exact ⟨Or.inr h1, h2⟩
      · rintro ⟨h1 | h1, h2⟩
        · exact Or.inl h1
        · exact Or.inr ⟨h1, h2⟩

/-- A minimal doji bar for the data-gap scenarios. -/
def barX : Candle := { open_ := 1, high := 1, low := 1, close := 1 }

/-- Counterexample for C4: the main engine's run iterates the target (ES)
index and looks the reference (NQ) bar up with `df.loc[ts]`; a timestamp
present only in the ES sequence raises a `KeyError` (modelled as
`Except.error`) instead of being silently skipped. -/
theorem C4_data_gap_counterexample :
    Engine.run {} [(1, barX), (2, barX)] [(1, barX)] = Except.error 2 := by
  norm_num [Engine.run, Engine.runLoop, Engine.runStep, Engine.processList,
    Engine.checkForPpi, Engine.addCandidate, Engine.trendBlocks,
    Engine.mkPpiSetup, get_candle_direction, lookupBar, emaLookup,
    List.find?, barX]

/-- Claim C4 (amended): the optimizer engine processes exactly the
timestamps present in both sequences — membership in its common index is
the conjunction of membership in the two index maps, and ascending order
is preserved — while the main engine's run succeeds if and only if every
target timestamp is present in the reference sequence (a target-only
timestamp raises a KeyError instead of being skipped; a reference-only
timestamp is skipped by both engines since only the target index is
iterated). -/
theorem C4_data_gap_amended :
    (∀ (config : Engine.BacktestConfig) (es nq : List (Nat × Candle)),
      (∃ r, Engine.run config es nq = Except.ok r) ↔
        ∀ p ∈ es, (lookupBar nq p.1).isSome = true) ∧
    (∀ (es nq : List (Nat × Candle)) (ts : Nat),
      ts ∈ Opt.commonIdx es nq ↔
        (ts ∈ es.map Prod.fst ∧ ts ∈ nq.map Prod.fst)) ∧
    (∀ (es nq : List (Nat × Candle)),
      (es.map Prod.fst).Pairwise (· < ·) →
        (Opt.commonIdx es nq).Pairwise (· < ·)) := by
  refine ⟨?_, commonIdx_mem_iff, ?_⟩
  · intro config es nq
    constructor
    · intro ⟨r, hr⟩
      apply (engine_runLoop_ok_iff config nq es {}).mp
      unfold Engine.run at hr
      rcases hl : Engine.runLoop config nq {} es with ts | st
      · rw [hl] at hr
        exact absurd hr (by simp)
      · exact ⟨st, rfl⟩
    · intro hall
      obtain ⟨st, hst⟩ := (engine_runLoop_ok_iff config nq es {}).mpr hall
      refine ⟨st.results ++ st.active.map (fun p =>
        { p.2 with state := TradeState.EXPIRED,
                   outcome := some Outcome.EXPIRED }), ?_⟩
      unfold Engine.run
      rw [hst]
  · intro es nq h
    exact h.sublist (commonIdx_fst_sublist es nq)

/-- Witness for C4 (amended): on gap-free one-bar inputs the main run
returns a result. -/
theorem C4_data_gap_amended_witness :
    ∃ r, Engine.run {} [(1, barX)] [(1, barX)] = Except.ok r :=
  (C4_data_gap_amended.1 {} [(1, barX)] [(1, barX)]).mpr
    (by simp [lookupBar, List.find?])

/-- Configuration enabling only the `min_atr` filter (threshold 5). -/
def cfgMinAtr : Engine.BacktestConfig := { min_atr := 5 }

/-- A fresh PPI-state setup with extremes 102 and 99. -/
def tPpi : Engine.TradeSetup :=
  { ppi_time := 1, ppi_high := 102, ppi_low := 99, asset := Asset.ES,
    state := TradeState.PPI }

/-- A bearish sweep candle carrying `atr_14 = 1`. -/
def cSweepAtr : Candle :=
  { open_ := 101, high := 103, low := 100, close := 101, atr_14 := some 1 }

/-- Counterexample for C5: with `min_atr = 5` enabled and the sweeping
candle carrying `atr_14 = 1 < 5`, the claim demands the sweep be rejected
at the PPI-to-SWEEP transition, but `_process_ppi_phase` accepts it —
`min_atr` is not evaluated there (it is checked in `_check_for_ppi`, at
setup creation, on the ES candle). -/
theorem C5_min_atr_counterexample :
    0 < cfgMinAtr.min_atr ∧ cSweepAtr.atr_14 = some 1 ∧
    (1 : ℚ) < cfgMinAtr.min_atr ∧
    (Engine.processPpiPhase cfgMinAtr tPpi 2 cSweepAtr).state =
      TradeState.SWEEP := by
  refine ⟨by norm_num [cfgMinAtr], rfl, by norm_num [cfgMinAtr], ?_⟩
  norm_num [Engine.processPpiPhase, cfgMinAtr, tPpi, cSweepAtr]

/-- Claim C5 (amended): at the PPI-to-SWEEP transition the engine
conjunctively evaluates `max_atr`, `min_wick_ratio`, `min_rvol`,
`require_bb_expansion` and `use_macro_filter` on the sweeping candle —
with `max_atr` skipped when `atr_14` is absent and the other four failing
closed on a missing indicator — while `min_atr` is evaluated earlier, in
`_check_for_ppi` at setup creation on the ES candle (and skipped there
when `atr_14` is absent). -/
theorem C5_filter_evaluation_amended :
    (∀ (config : Engine.BacktestConfig) (t : Engine.TradeSetup) (ts : Nat)
        (c : Candle), t.state = TradeState.PPI →
      t.candles_since_ppi + 1 ≤ config.ppi_expiry_candles →
      c.high > t.ppi_high → c.close ≤ t.ppi_high →
      ((Engine.processPpiPhase config t ts c).state = TradeState.SWEEP ↔
        (Engine.maxAtrPass config c ∧ Engine.wickUpPass config c ∧
         Engine.rvolPass config c ∧ Engine.bbPass config c ∧
         Engine.macroShortPass config c))) ∧
    (∀ (config : Engine.BacktestConfig) (c : Candle),
      c.atr_14 = none → Engine.maxAtrPass config c) ∧
    (∀ (config : Engine.BacktestConfig) (c : Candle),
      c.wick_frac_up = none → 0 < config.min_wick_frac →
        ¬Engine.wickUpPass config c) ∧
    (∀ (config : Engine.BacktestConfig) (c : Candle),
      c.rvol = none → 0 < config.min_rvol → ¬Engine.rvolPass config c) ∧
    (∀ (config : Engine.BacktestConfig) (c : Candle),
      c.bb_expansion = none → config.require_bb_expansion = true →
        ¬Engine.bbPass config c) ∧
    (∀ (config : Engine.BacktestConfig) (c : Candle),
      c.macro_trend = none → config.use_macro_filter = true →
        ¬Engine.macroShortPass config c) ∧
    (∀ (config : Engine.BacktestConfig) (ts : Nat) (es nq : Candle)
        (active : List (Asset × Engine.TradeSetup)) (a : ℚ),
      0 < config.min_atr → es.atr_14 = some a → a < config.min_atr →
      Engine.checkForPpi config ts es nq active = active) ∧
    (∀ (config : Engine.BacktestConfig) (ts : Nat) (es nq : Candle)
        (active : List (Asset × Engine.TradeSetup)),
      es.atr_14 = none →
      Engine.checkForPpi config ts es nq active =
        Engine.checkForPpi { config with min_atr := 0 } ts es nq active) := by
  refine ⟨?_, ?_, ?_, ?_, ?_, ?_, ?_, ?_⟩
  · intro config t ts c hp hexp hh hc
    unfold Engine.processPpiPhase
    dsimp only
    rw [if_neg (by omega), if_pos ⟨hh, hc⟩]
    split_ifs with hf
    · exact iff_of_true rfl hf
    · refine iff_of_false ?_ hf
      dsimp only
      rw [hp]
      simp
  · intro config c h
    rintro ⟨h1, h2⟩
    rw [h] at h2
    simp only [Option.getD_none] at h2
    linarith
  · intro config c h h0 hpass
    exact hpass ⟨h0, by rw [h]; simpa using h0⟩
  · intro config c h h0 hpass
    exact hpass ⟨h0, by rw [h]; simpa using h0⟩
  · intro config c h h0 hpass
    exact hpass ⟨h0, by rw [h]; rfl⟩
  · intro config c h h0 hpass
    refine hpass ⟨h0, ?_⟩
    rw [h]
    simp
  · intro config ts es nq active a h0 ha hlt
    unfold Engine.checkForPpi
    dsimp only
    split_ifs with h1 h2 h3 <;> try rfl
    exact absurd ⟨h0, by rw [ha]; rfl, by rw [ha]; simpa using hlt⟩ h2
  · intro config ts es nq active h
    unfold Engine.checkForPpi
    dsimp only
    rw [h]
    norm_num
    rfl

/-- A bearish sweep candle with no indicator fields. -/
def cSweepBare : Candle := { open_ := 101, high := 103, low := 100, close := 101 }

/-- Witness for C5 (amended): with every filter disabled the bare sweep
candle moves the PPI setup to SWEEP (all five passes hold trivially). -/
theorem C5_filter_evaluation_amended_witness :
    (Engine.processPpiPhase {} tPpi 2 cSweepBare).state = TradeState.SWEEP :=
  (C5_filter_evaluation_amended.1 {} tPpi 2 cSweepBare rfl (by norm_num [tPpi])
    (by norm_num [tPpi, cSweepBare]) (by norm_num [tPpi, cSweepBare])).mpr
    ⟨by norm_num, by norm_num, by norm_num, by norm_num, by norm_num⟩

/-- Iterate `_process_pending_phase` over a candle sequence while the setup
stays PENDING (exactly what the run loop does for a pending setup). -/
def pendingRun (config : Engine.BacktestConfig) :
    Engine.TradeSetup → List (Nat × Candle) → Engine.TradeSetup
  | t, [] => t
  | t, (ts, c) :: rest =>
    if t.state = TradeState.PENDING then
      pendingRun config (Engine.processPendingPhase config t ts c) rest
    else t

/-- The entry level is never touched along the trace: no step of the
pending phase ever yields FILLED. -/
def noFill (config : Engine.BacktestConfig) :
    Engine.TradeSetup → List (Nat × Candle) → Bool
  | _, [] => true
  | t, (ts, c) :: rest =>
    if t.state = TradeState.PENDING then
      decide ((Engine.processPendingPhase config t ts c).state ≠
          TradeState.FILLED) &&
        noFill config (Engine.processPendingPhase config t ts c) rest
    else true

theorem trailStep_state (config : Engine.BacktestConfig)
    (t : Engine.TradeSetup) (c : Candle) :
    (Engine.trailStep config t c).state = t.state := by
  unfold Engine.trailStep
  dsimp only
  split_ifs <;> rfl

theorem trailStep_counter (config : Engine.BacktestConfig)
    (t : Engine.TradeSetup) (c : Candle) :
    (Engine.trailStep config t c).candles_since_bos = t.candles_since_bos := by
  unfold Engine.trailStep
  dsimp only
  split_ifs <;> rfl

theorem processPending_counter (config : Engine.BacktestConfig)
    (t : Engine.TradeSetup) (ts : Nat) (c : Candle) :
    (Engine.processPendingPhase config t ts c).candles_since_bos =
      t.candles_since_bos + 1 := by
  unfold Engine.processPendingPhase Engine.fillOrExpire
  dsimp only
  split_ifs <;> simp [trailStep_counter]

theorem processPending_state (config : Engine.BacktestConfig)
    (t : Engine.TradeSetup) (ts : Nat) (c : Candle)
    (hp : t.state = TradeState.PENDING)
    (hnf : (Engine.processPendingPhase config t ts c).state ≠
      TradeState.FILLED) :
    (Engine.processPendingPhase config t ts c).state =
      if config.entry_expiry_candles ≤ t.candles_since_bos + 1 then
        TradeState.EXPIRED
      else TradeState.PENDING := by
  unfold Engine.processPendingPhase Engine.fillOrExpire at hnf ⊢
  dsimp only at hnf ⊢
  split_ifs at hnf ⊢ with h1 h2 h3 h4 h5 h6 <;>
    simp_all [trailStep_state, trailStep_counter, hp]

theorem pendingRun_frozen (config : Engine.BacktestConfig)
    (t : Engine.TradeSetup) (cs : List (Nat × Candle))
    (h : t.state ≠ TradeState.PENDING) : pendingRun config t cs = t := by
  cases cs with
  | nil => rfl
  | cons hd rest =>
    obtain ⟨ts, c⟩ := hd
    rw [pendingRun, if_neg h]

theorem pendingRun_expiry (config : Engine.BacktestConfig) :
    ∀ (cs : List (Nat × Candle)) (t : Engine.TradeSetup),
      t.state = TradeState.PENDING →
      t.candles_since_bos < config.entry_expiry_candles →
      noFill config t cs = true →
      ((pendingRun config t cs).state = TradeState.EXPIRED ↔
        config.entry_expiry_candles ≤ t.candles_since_bos + cs.length) := by
  intro cs
  induction cs with
  | nil =>
    intro t hp hc _
    rw [pendingRun, hp]
    simp only [List.length_nil]
    constructor
    · intro h
      exact absurd h (by simp)
    · intro h
      omega
  | cons hd rest ih =>
    obtain ⟨ts, c⟩ := hd
    intro t hp hc hnf
    rw [noFill, if_pos hp, Bool.and_eq_true, decide_eq_true_eq] at hnf
    obtain ⟨hnf1, hnf2⟩ := hnf
    have hcount := processPending_counter config t ts c
    have hstate := processPending_state config t ts c hp hnf1
    rw [pendingRun, if_pos hp]
    by_cases hN : config.entry_expiry_candles ≤ t.candles_since_bos + 1
    · rw [if_pos hN] at hstate
      rw [pendingRun_frozen config _ rest (by rw [hstate]; simp), hstate]
      simp only [List.length_cons]
      exact iff_of_true trivial (by omega)
    · rw [if_neg hN] at hstate
      have := ih (Engine.processPendingPhase config t ts c) hstate
        (by omega) hnf2
      rw [this, hcount]
      simp only [List.length_cons]
      omega

/-- Claim C6 (amended): a setup entering PENDING with the BOS counter at 0
whose entry is never touched expires at exactly `entry_expiry_candles`
candles after the BOS candle — EXPIRED if and only if at least
`entry_expiry_candles` candles have been processed (one fewer leaves it
PENDING), not at `entry_expiry_candles + 1`. -/
theorem C6_entry_expiry_amended :
    ∀ (config : Engine.BacktestConfig) (t : Engine.TradeSetup)
      (cs : List (Nat × Candle)),
      t.state = TradeState.PENDING → t.candles_since_bos = 0 →
      0 < config.entry_expiry_candles → noFill config t cs = true →
      ((pendingRun config t cs).state = TradeState.EXPIRED ↔
        config.entry_expiry_candles ≤ cs.length) := by
  intro config t cs hp h0 hN hnf
  have := pendingRun_expiry config cs t hp (by omega) hnf
  rw [h0] at this
  simpa using this

/-- A quiet candle: the high stays below entry 100, the low above fib 97. -/
def cQuiet : Candle := { open_ := 98, high := 99, low := 98, close := 98 }

/-- Seven quiet candles following the BOS of `tPendShort`. -/
def csQuiet7 : List (Nat × Candle) :=
  [(10, cQuiet), (11, cQuiet), (12, cQuiet), (13, cQuiet), (14, cQuiet),
   (15, cQuiet), (16, cQuiet)]

set_option maxHeartbeats 1600000 in
/-- Counterexample for C6: with the default `entry_expiry_candles = 7`, the
pending setup whose entry is never touched is EXPIRED after exactly 7
candles following the BOS candle (and still PENDING after 6) — one candle
earlier than the claimed `entry_expiry_candles + 1 = 8`. -/
theorem C6_entry_expiry_counterexample :
    (pendingRun {} tPendShort csQuiet7).state = TradeState.EXPIRED ∧
    (pendingRun {} tPendShort (csQuiet7.take 6)).state =
      TradeState.PENDING ∧
    csQuiet7.length = ({} : Engine.BacktestConfig).entry_expiry_candles := by
  refine ⟨?_, ?_, rfl⟩ <;>
    norm_num [pendingRun, Engine.processPendingPhase, Engine.trailStep,
      Engine.fillOrExpire, Engine.calculate_fib_levels, pyabs, tPendShort,
      cQuiet, csQuiet7, List.take]

/-- Witness for C6 (amended): with `entry_expiry_candles = 1` a single
quiet candle expires the pending setup, and the iff instantiates to
`1 ≤ 1`. -/
theorem C6_entry_expiry_amended_witness :
    (pendingRun { entry_expiry_candles := 1 } tPendShort
      [(10, cQuiet)]).state = TradeState.EXPIRED ↔
      ({ entry_expiry_candles := 1 } : Engine.BacktestConfig).entry_expiry_candles ≤
        ([(10, cQuiet)] : List (Nat × Candle)).length :=
  C6_entry_expiry_amended { entry_expiry_candles := 1 } tPendShort
    [(10, cQuiet)] rfl rfl (by norm_num)
    (by norm_num [noFill, Engine.processPendingPhase, Engine.trailStep,
      Engine.fillOrExpire, Engine.calculate_fib_levels, pyabs, tPendShort,
      cQuiet]
        decide)

theorem trendBlocks_of_ema_none (config : Engine.BacktestConfig)
    (d : Int) (c : Candle)
    (h : emaLookup c config.trend_ema_period = none) :
    Engine.trendBlocks config d c = false := by
  unfold Engine.trendBlocks
  rw [h]
  split_ifs <;> rfl

theorem trendBlocks_of_disabled (config : Engine.BacktestConfig)
    (d : Int) (c : Candle) (h : config.use_trend_filter = false) :
    Engine.trendBlocks config d c = false := by
  unfold Engine.trendBlocks
  rw [h]
  rfl

/-- Claim C10: the trend filter fails open on missing data — when
`use_trend_filter` is enabled but the candidate candle lacks the
`ema_{trend_ema_period}` column, `_check_for_ppi` behaves exactly as if
the filter were disabled, and on a divergence the setup is still created
in state PPI. -/
theorem C10_trend_filter_fails_open :
    (∀ (config : Engine.BacktestConfig) (ts : Nat) (es nq : Candle)
        (active : List (Asset × Engine.TradeSetup)),
      emaLookup es config.trend_ema_period = none →
      emaLookup nq config.trend_ema_period = none →
      Engine.checkForPpi config ts es nq active =
        Engine.checkForPpi { config with use_trend_filter := false }
          ts es nq active) ∧
    (∀ (config : Engine.BacktestConfig) (ts : Nat) (es nq : Candle),
      config.use_trend_filter = true →
      emaLookup es config.trend_ema_period = none →
      get_candle_direction es ≠ 0 → get_candle_direction nq ≠ 0 →
      get_candle_direction es ≠ get_candle_direction nq →
      ¬(0 < config.min_atr ∧ es.atr_14.isSome = true ∧
          es.atr_14.getD 0 < config.min_atr) →
      (Engine.checkForPpi config ts es nq []).head? =
        some (Asset.ES, Engine.mkPpiSetup ts (get_candle_direction es)
          (get_candle_direction nq) es Asset.ES)) := by
  constructor
  · intro config ts es nq active hes hnq
    unfold Engine.checkForPpi Engine.addCandidate
    dsimp only
    rw [trendBlocks_of_ema_none config _ es hes,
      trendBlocks_of_ema_none config _ nq hnq,
      trendBlocks_of_disabled { config with use_trend_filter := false } _ es
        rfl,
      trendBlocks_of_disabled { config with use_trend_filter := false } _ nq
        rfl]
  · intro config ts es nq htf hes hd1 hd2 hdiff hatr
    unfold Engine.checkForPpi Engine.addCandidate
    dsimp only
    rw [if_neg (by rintro (h | h) <;> [exact hd1 h; exact hd2 h]),
      if_neg hatr, if_pos hdiff, trendBlocks_of_ema_none config _ es hes]
    simp only [List.find?_nil, Option.isSome_none, Bool.false_eq_true,
      if_false, List.nil_append]
    split_ifs <;> rfl

/-- An ES candle with a green body and no EMA columns. -/
def esNoEma : Candle := { open_ := 100, high := 102, low := 99, close := 101 }

/-- An NQ candle with a red body. -/
def nqRed : Candle := { open_ := 200, high := 201, low := 198, close := 199 }

/-- Witness for C10: with the trend filter enabled and no EMA column on
the ES candle, the divergence at these candles still creates the ES setup
in state PPI. -/
theorem C10_trend_filter_fails_open_witness :
    (Engine.checkForPpi { use_trend_filter := true } 1 esNoEma nqRed
      []).head? = some (Asset.ES, Engine.mkPpiSetup 1
        (get_candle_direction esNoEma) (get_candle_direction nqRed)
        esNoEma Asset.ES) :=
  C10_trend_filter_fails_open.2 { use_trend_filter := true } 1 esNoEma nqRed
    rfl rfl (by norm_num [get_candle_direction, esNoEma])
    (by norm_num [get_candle_direction, nqRed])
    (by norm_num [get_candle_direction, esNoEma, nqRed])
    (by norm_num)
